import Mathlib

/-!
Shallow embedding of the FUTUROS moving-average crossover monitor.

MA values, closing prices and the minimum-strength fraction are modelled as
rationals.  Each definition mirrors the corresponding Python function in
src/monitor.py, src/telegram_notifier.py and src/config.py; names follow the
source where Lean allows it.
-/

namespace Futuros

/-- Classification of one detection cycle: upward crossover, downward
crossover, or no crossover (mirrors the pair of booleans returned by
`detectar_cruzamento`, with the `'alta' if cruzamento_alta else 'baixa'`
tie-break from `verificar_cruzamento`). -/
inductive Direcao where
  | alta : Direcao
  | baixa : Direcao
  | nenhuma : Direcao
deriving DecidableEq

/-- The previous-bar and current-bar values of one reference moving average
(one row pair of the two-row frame returned by `calcular_medias`, restricted
to a single reference MA column). -/
structure RefPar where
  anterior : ℚ
  atual : ℚ
deriving DecidableEq

/-- The MA values that `detectar_cruzamento` reads from the two-row frame:
the principal MA at the previous and current bar, and each configured
reference MA at the previous and current bar. -/
structure Dados where
  anterior : ℚ
  atual : ℚ
  referencias : List RefPar
deriving DecidableEq

/-- monitor.py lines 229-236: the `cruzamento_alta_forte` loop.  The flag
survives the loop exactly when the principal's current value is strictly
above `atual[ma_ref] * (1 + FORCA_MINIMA_CRUZAMENTO)` for every reference. -/
def cruzamento_alta_forte (d : Dados) (s : ℚ) : Bool :=
  d.referencias.all fun r => decide (r.atual * (1 + s) < d.atual)

/-- monitor.py lines 238-244: the `cruzamento_baixa_forte` loop.  The flag
survives exactly when the principal's current value is strictly below
`atual[ma_ref] * (1 - FORCA_MINIMA_CRUZAMENTO)` for every reference. -/
def cruzamento_baixa_forte (d : Dados) (s : ℚ) : Bool :=
  d.referencias.all fun r => decide (d.atual < r.atual * (1 - s))

/-- monitor.py lines 248-251: `cruzou_de_fato` for the upward case — at the
previous bar the principal was at or below at least one reference. -/
def cruzou_alta_de_fato (d : Dados) : Bool :=
  d.referencias.any fun r => decide (d.anterior ≤ r.anterior)

/-- monitor.py lines 257-260: `cruzou_de_fato` for the downward case — at the
previous bar the principal was at or above at least one reference. -/
def cruzou_baixa_de_fato (d : Dados) : Bool :=
  d.referencias.any fun r => decide (r.anterior ≤ d.anterior)

/-- monitor.py `detectar_cruzamento` (lines 205-265): returns the pair
`(cruzamento_alta, cruzamento_baixa)` after combining the strength and
transition tests. -/
def detectar_cruzamento (d : Dados) (s : ℚ) : Bool × Bool :=
  (cruzamento_alta_forte d s && cruzou_alta_de_fato d,
   cruzamento_baixa_forte d s && cruzou_baixa_de_fato d)

/-- The direction derived from the detector's boolean pair, with the
tie-break from monitor.py line 322 (`'alta' if cruzamento_alta else 'baixa'`):
UP takes precedence when both flags are set. -/
def direcao (d : Dados) (s : ℚ) : Direcao :=
  match detectar_cruzamento d s with
  | (true, _) => Direcao.alta
  | (false, true) => Direcao.baixa
  | (false, false) => Direcao.nenhuma

/-- One entry of `self.alertas_ativos` (monitor.py lines 325-328): the fired
direction and the time of firing. -/
structure AlertaAtivo where
  tipo : Direcao
  timestamp : ℕ
deriving DecidableEq

/-- monitor.py lines 305-314: the `tem_forca` loop of the decay check — some
reference for which the principal's current value lies strictly outside the
`[r*(1-s), r*(1+s)]` band. -/
def tem_forca (d : Dados) (s : ℚ) : Bool :=
  d.referencias.any fun r =>
    decide (r.atual * (1 + s) < d.atual ∨ d.atual < r.atual * (1 - s))

/-- monitor.py lines 303-318: when an active alert is present and the decay
check finds no remaining strength, the entry is deleted. -/
def reset_alerta (alerta : Option AlertaAtivo) (d : Dados) (s : ℚ) :
    Option AlertaAtivo :=
  match alerta with
  | some a => if tem_forca d s then some a else none
  | none => none

/-- Outcome of the outbound Telegram call inside `verificar_cruzamento`
(monitor.py lines 343-352): success, a false return, or a thrown exception
(caught by the inner `except`). -/
inductive Entrega where
  | sucesso : Entrega
  | falha : Entrega
  | excecao : Entrega
deriving DecidableEq

/-- The per-key result of one `verificar_cruzamento` call: the stored alert
for the key afterwards, whether a new alert fired (the call returned a
result dict rather than None), and the `alertas_enviados` counter. -/
structure Ciclo where
  alerta : Option AlertaAtivo
  disparou : Bool
  alertas_enviados : ℕ
deriving DecidableEq

/-- monitor.py `verificar_cruzamento` (lines 293-357), for one key, after the
MAs have been computed: run the detector, run the decay-reset block, and fire
exactly when a crossover was detected and no active alert remains for the
key.  On firing, the alert is recorded (line 325) before the Telegram call,
whose outcome only affects the sent counter (lines 343-352). -/
def verificar_cruzamento (alerta : Option AlertaAtivo) (d : Dados) (s : ℚ)
    (agora : ℕ) (entrega : Entrega) (enviados : ℕ) : Ciclo :=
  let flags := detectar_cruzamento d s
  let alerta1 := reset_alerta alerta d s
  if (flags.1 || flags.2) && alerta1.isNone then
    { alerta := some ⟨if flags.1 then Direcao.alta else Direcao.baixa, agora⟩,
      disparou := true,
      alertas_enviados :=
        match entrega with
        | Entrega.sucesso => enviados + 1
        | _ => enviados }
  else
    { alerta := alerta1, disparou := false, alertas_enviados := enviados }

/-- Semantics of `df['close'].rolling(periodo).mean()` at row index `i`
(monitor.py line 184): the arithmetic mean of the trailing `w` closes ending
at `i` when a full window is available, and no value (NaN) otherwise. -/
def rollingMean (closes : List ℚ) (w : ℕ) (i : ℕ) : Option ℚ :=
  if w ≤ i + 1 ∧ i < closes.length then
    some (((closes.take (i + 1)).drop (i + 1 - w)).sum / (w : ℚ))
  else none

/-- `max(PERIODOS_MA.values())` over the configured window lengths. -/
def max_periodo (periodos : List ℕ) : ℕ :=
  periodos.foldr max 0

/-- monitor.py `calcular_medias` (lines 175-198): rejects a series shorter
than the largest window, computes every rolling mean, keeps only the last
two row positions, rejects the result when any of those MA cells is NaN
(here: when the rolling window is incomplete at that position), and
otherwise returns the `(window, value)` rows for the previous and current
bar. -/
def calcular_medias (closes : List ℚ) (periodos : List ℕ) :
    Option (List (ℕ × ℚ) × List (ℕ × ℚ)) :=
  if closes.length < max_periodo periodos then none
  else if periodos.any (fun w => decide (closes.length < w)) then none
  else if ((periodos.map fun w => (w, rollingMean closes w (closes.length - 2))) ++
      (periodos.map fun w => (w, rollingMean closes w (closes.length - 1)))).any
        (fun p => p.2.isNone) then none
  else
    some ((periodos.map fun w =>
            (w, (rollingMean closes w (closes.length - 2)).getD 0)),
          (periodos.map fun w =>
            (w, (rollingMean closes w (closes.length - 1)).getD 0)))

/-- telegram_notifier.py `_calcular_forca_real` (lines 28-42): reads the
`ma_7`, `ma_25`, `ma_99` entries of the result dict (absent keys default to
0 via `.get`), returns 0 when either reference is 0, and otherwise the
smaller of the two percentage distances of `ma_7` from the references. -/
def calcular_forca_real (ma_7 ma_25 ma_99 : Option ℚ) : ℚ :=
  let ma7 := ma_7.getD 0
  let ma25 := ma_25.getD 0
  let ma99 := ma_99.getD 0
  if ma25 = 0 ∨ ma99 = 0 then 0
  else
    let forca_vs_ma25 := |(ma7 - ma25) / ma25| * 100
    let forca_vs_ma99 := |(ma7 - ma99) / ma99| * 100
    min forca_vs_ma25 forca_vs_ma99

/-! ### Basic lemmas about the detector -/

theorem alta_forte_iff (d : Dados) (s : ℚ) :
    cruzamento_alta_forte d s = true ↔
      ∀ r ∈ d.referencias, r.atual * (1 + s) < d.atual := by
  simp [cruzamento_alta_forte, List.all_eq_true]

theorem baixa_forte_iff (d : Dados) (s : ℚ) :
    cruzamento_baixa_forte d s = true ↔
      ∀ r ∈ d.referencias, d.atual < r.atual * (1 - s) := by
  simp [cruzamento_baixa_forte, List.all_eq_true]

theorem cruzou_alta_iff (d : Dados) :
    cruzou_alta_de_fato d = true ↔
      ∃ r ∈ d.referencias, d.anterior ≤ r.anterior := by
  simp [cruzou_alta_de_fato, List.any_eq_true]

theorem cruzou_baixa_iff (d : Dados) :
    cruzou_baixa_de_fato d = true ↔
      ∃ r ∈ d.referencias, r.anterior ≤ d.anterior := by
  simp [cruzou_baixa_de_fato, List.any_eq_true]

theorem tem_forca_iff (d : Dados) (s : ℚ) :
    tem_forca d s = true ↔
      ∃ r ∈ d.referencias,
        r.atual * (1 + s) < d.atual ∨ d.atual < r.atual * (1 - s) := by
  simp [tem_forca, List.any_eq_true]

theorem tem_forca_eq_false_iff (d : Dados) (s : ℚ) :
    tem_forca d s = false ↔
      ∀ r ∈ d.referencias,
        ¬(r.atual * (1 + s) < d.atual) ∧ ¬(d.atual < r.atual * (1 - s)) := by
  rw [← Bool.not_eq_true, tem_forca_iff]
  push_neg
  simp [not_or]

theorem direcao_alta_iff (d : Dados) (s : ℚ) :
    direcao d s = Direcao.alta ↔
      cruzamento_alta_forte d s = true ∧ cruzou_alta_de_fato d = true := by
  unfold direcao detectar_cruzamento
  cases h1 : cruzamento_alta_forte d s <;>
    cases h2 : cruzou_alta_de_fato d <;>
      cases h3 : cruzamento_baixa_forte d s <;>
        cases h4 : cruzou_baixa_de_fato d <;> simp

theorem direcao_baixa_iff (d : Dados) (s : ℚ) :
    direcao d s = Direcao.baixa ↔
      ¬(cruzamento_alta_forte d s = true ∧ cruzou_alta_de_fato d = true) ∧
        (cruzamento_baixa_forte d s = true ∧ cruzou_baixa_de_fato d = true) := by
  unfold direcao detectar_cruzamento
  cases h1 : cruzamento_alta_forte d s <;>
    cases h2 : cruzou_alta_de_fato d <;>
      cases h3 : cruzamento_baixa_forte d s <;>
        cases h4 : cruzou_baixa_de_fato d <;> simp

theorem direcao_nenhuma_iff (d : Dados) (s : ℚ) :
    direcao d s = Direcao.nenhuma ↔
      ¬(cruzamento_alta_forte d s = true ∧ cruzou_alta_de_fato d = true) ∧
        ¬(cruzamento_baixa_forte d s = true ∧ cruzou_baixa_de_fato d = true) := by
  unfold direcao detectar_cruzamento
  cases h1 : cruzamento_alta_forte d s <;>
    cases h2 : cruzou_alta_de_fato d <;>
      cases h3 : cruzamento_baixa_forte d s <;>
        cases h4 : cruzou_baixa_de_fato d <;> simp

/-! ### Claim C4: strict strength threshold with a single reference -/

/-- Claim C4: with a single reference MA and the previous-bar transition
condition for UP satisfied (`pa ≤ ra`), the classification is UP iff the
principal's current value `p` strictly exceeds the scaled reference
`r * (1 + s)`; in particular at the exact boundary `p = r * (1 + s)` the
classification is not UP. -/
theorem claim_C4 (pa p ra r s : ℚ) (h : pa ≤ ra) :
    (direcao ⟨pa, p, [⟨ra, r⟩]⟩ s = Direcao.alta ↔ r * (1 + s) < p) ∧
      (p = r * (1 + s) → direcao ⟨pa, p, [⟨ra, r⟩]⟩ s ≠ Direcao.alta) := by
  have h1 : direcao ⟨pa, p, [⟨ra, r⟩]⟩ s = Direcao.alta ↔ r * (1 + s) < p := by
    rw [direcao_alta_iff, alta_forte_iff, cruzou_alta_iff]
    simp [h]
  refine ⟨h1, fun hp hdir => ?_⟩
  rw [h1, hp] at hdir
  exact lt_irrefl _ hdir

/-- Witness for C4 at the spec's Scenario A values (previous principal 99 at
or below the previous reference 100; current principal 105, reference 100,
minimum strength 2%). -/
theorem claim_C4_witness :
    (direcao ⟨99, 105, [⟨100, 100⟩]⟩ (1 / 50) = Direcao.alta ↔
        (100 : ℚ) * (1 + 1 / 50) < 105) ∧
      ((105 : ℚ) = 100 * (1 + 1 / 50) →
        direcao ⟨99, 105, [⟨100, 100⟩]⟩ (1 / 50) ≠ Direcao.alta) :=
  claim_C4 99 105 100 100 (1 / 50) (by norm_num)

/-! ### Claim C5: transition requirement -/

/-- Counterexample to claim C5 as stated: with negative MA values the
principal can be strictly above `r * (1 + s)` at both bars for every
reference and the detector still reports UP rather than NONE, because
being above the scaled reference does not imply being above the reference
itself when the reference is negative. -/
theorem claim_C5_counterexample :
    (∀ rp ∈ [(⟨-100, -100⟩ : RefPar)],
        rp.anterior * (1 + 1 / 50) < (-101 : ℚ) ∧
        rp.atual * (1 + 1 / 50) < (-101 : ℚ)) ∧
      direcao ⟨-101, -101, [⟨-100, -100⟩]⟩ (1 / 50) ≠ Direcao.nenhuma := by
  have hd : direcao ⟨-101, -101, [⟨-100, -100⟩]⟩ (1 / 50) = Direcao.alta := by
    rw [direcao_alta_iff, alta_forte_iff, cruzou_alta_iff]
    norm_num
  refine ⟨?_, by rw [hd]; simp⟩
  intro rp hrp
  rw [List.mem_singleton] at hrp
  subst hrp
  norm_num

/-- Claim C5 as amended: provided the strength fraction is nonnegative and
every reference MA value is nonnegative at both bars, a principal already
strictly above `r * (1 + s)` for every reference at both bars classifies as
NONE; and unconditionally UP is only reported when the previous principal
was at or below some reference, and DOWN only when it was at or above some
reference. -/
theorem claim_C5_amended (d : Dados) (s : ℚ) :
    (0 ≤ s →
      (∀ r ∈ d.referencias, 0 ≤ r.anterior ∧ 0 ≤ r.atual) →
      (∀ r ∈ d.referencias,
        r.anterior * (1 + s) < d.anterior ∧ r.atual * (1 + s) < d.atual) →
      direcao d s = Direcao.nenhuma) ∧
    (direcao d s = Direcao.alta → ∃ r ∈ d.referencias, d.anterior ≤ r.anterior) ∧
    (direcao d s = Direcao.baixa → ∃ r ∈ d.referencias, r.anterior ≤ d.anterior) := by
  refine ⟨fun hs hpos hstrong => ?_, fun h => ?_, fun h => ?_⟩
  · rw [direcao_nenhuma_iff]
    constructor
    · rintro ⟨-, hcz⟩
      rw [cruzou_alta_iff] at hcz
      obtain ⟨r, hr, hle⟩ := hcz
      have h1 := (hstrong r hr).1
      have h2 := (hpos r hr).1
      nlinarith
    · rintro ⟨hbf, hcz⟩
      rw [cruzou_baixa_iff] at hcz
      obtain ⟨r, hr, -⟩ := hcz
      rw [baixa_forte_iff] at hbf
      have h1 := (hstrong r hr).2
      have h2 := (hpos r hr).2
      have h3 := hbf r hr
      nlinarith
  · rw [direcao_alta_iff, cruzou_alta_iff] at h
    exact h.2
  · rw [direcao_baixa_iff, cruzou_baixa_iff] at h
    exact h.2.2

/-- Witness for the amended C5 at the spec's Scenario B values: previous
principal 103 already above both scaled references, current principal 105
still above, so the classification is NONE. -/
theorem claim_C5_witness :
    direcao ⟨103, 105, [⟨100, 100⟩, ⟨98, 98⟩]⟩ (1 / 50) = Direcao.nenhuma :=
  (claim_C5_amended ⟨103, 105, [⟨100, 100⟩, ⟨98, 98⟩]⟩ (1 / 50)).1
    (by norm_num) (by norm_num) (by norm_num)

/-! ### Claim C6: mutual exclusivity of the strength tests -/

/-- Counterexample to claim C6 as stated: with a negative reference value
and a positive strength fraction, the scaled upper bound `r * (1 + s)` lies
strictly below the scaled lower bound `r * (1 - s)`, so a principal between
them satisfies the UP-strength and DOWN-strength tests simultaneously. -/
theorem claim_C6_counterexample :
    (0 : ℚ) < 1 / 50 ∧
      ([(⟨0, -1⟩ : RefPar)] : List RefPar) ≠ [] ∧
      cruzamento_alta_forte ⟨0, -1, [⟨0, -1⟩]⟩ (1 / 50) = true ∧
      cruzamento_baixa_forte ⟨0, -1, [⟨0, -1⟩]⟩ (1 / 50) = true := by
  refine ⟨by norm_num, by simp, ?_, ?_⟩
  · rw [alta_forte_iff]
    norm_num
  · rw [baixa_forte_iff]
    norm_num

/-- Claim C6 as amended: with a positive strength fraction, a nonempty
reference set, and nonnegative current reference values, the UP-strength
and DOWN-strength tests are never both satisfied. -/
theorem claim_C6_amended (d : Dados) (s : ℚ) (hs : 0 < s)
    (hpos : ∀ r ∈ d.referencias, 0 ≤ r.atual) (hne : d.referencias ≠ []) :
    ¬(cruzamento_alta_forte d s = true ∧ cruzamento_baixa_forte d s = true) := by
  rintro ⟨ha, hb⟩
  rw [alta_forte_iff] at ha
  rw [baixa_forte_iff] at hb
  obtain ⟨r, hr⟩ := List.exists_mem_of_ne_nil d.referencias hne
  have h1 := ha r hr
  have h2 := hb r hr
  have h3 := hpos r hr
  nlinarith

/-- Witness for the amended C6 at Scenario A current values. -/
theorem claim_C6_witness :
    ¬(cruzamento_alta_forte ⟨0, 105, [⟨0, 100⟩]⟩ (1 / 50) = true ∧
      cruzamento_baixa_forte ⟨0, 105, [⟨0, 100⟩]⟩ (1 / 50) = true) :=
  claim_C6_amended ⟨0, 105, [⟨0, 100⟩]⟩ (1 / 50) (by norm_num) (by norm_num)
    (by simp)

/-! ### Lemmas about `verificar_cruzamento` -/

theorem detectar_fst (d : Dados) (s : ℚ) :
    (detectar_cruzamento d s).1 =
      (cruzamento_alta_forte d s && cruzou_alta_de_fato d) := rfl

theorem detectar_snd (d : Dados) (s : ℚ) :
    (detectar_cruzamento d s).2 =
      (cruzamento_baixa_forte d s && cruzou_baixa_de_fato d) := rfl

theorem direcao_ne_nenhuma_or (d : Dados) (s : ℚ)
    (h : direcao d s ≠ Direcao.nenhuma) :
    ((cruzamento_alta_forte d s && cruzou_alta_de_fato d) ||
      (cruzamento_baixa_forte d s && cruzou_baixa_de_fato d)) = true := by
  by_contra hb
  apply h
  rw [direcao_nenhuma_iff]
  rw [Bool.or_eq_true, not_or, Bool.and_eq_true, Bool.and_eq_true] at hb
  exact hb

/-- A present, still-strong active alert suppresses any further firing. -/
theorem nao_redispara (x : AlertaAtivo) (d : Dados) (s : ℚ) (t : ℕ)
    (e : Entrega) (n : ℕ) (h : tem_forca d s = true) :
    (verificar_cruzamento (some x) d s t e n).disparou = false := by
  unfold verificar_cruzamento
  simp [reset_alerta, h]

/-- When neither crossover flag survives, the cycle only runs the decay
reset. -/
theorem verificar_sem_cruzamento (alerta : Option AlertaAtivo) (d : Dados)
    (s : ℚ) (t : ℕ) (e : Entrega) (n : ℕ)
    (h1 : (cruzamento_alta_forte d s && cruzou_alta_de_fato d) = false)
    (h2 : (cruzamento_baixa_forte d s && cruzou_baixa_de_fato d) = false) :
    verificar_cruzamento alerta d s t e n =
      { alerta := reset_alerta alerta d s, disparou := false,
        alertas_enviados := n } := by
  unfold verificar_cruzamento
  simp [detectar_cruzamento, h1, h2]

/-- When a crossover flag survives and no active alert remains after the
decay reset, the cycle fires and records the alert. -/
theorem verificar_dispara (alerta : Option AlertaAtivo) (d : Dados) (s : ℚ)
    (t : ℕ) (e : Entrega) (n : ℕ)
    (hor : ((cruzamento_alta_forte d s && cruzou_alta_de_fato d) ||
      (cruzamento_baixa_forte d s && cruzou_baixa_de_fato d)) = true)
    (hnone : reset_alerta alerta d s = none) :
    verificar_cruzamento alerta d s t e n =
      { alerta := some ⟨if (cruzamento_alta_forte d s && cruzou_alta_de_fato d)
            then Direcao.alta else Direcao.baixa, t⟩,
        disparou := true,
        alertas_enviados := match e with
          | Entrega.sucesso => n + 1
          | _ => n } := by
  unfold verificar_cruzamento
  simp [detectar_cruzamento, hor, hnone]

/-- A present, still-strong active alert survives the decay check and
suppresses the cycle. -/
theorem verificar_suprimido (a : AlertaAtivo) (d : Dados) (s : ℚ) (t : ℕ)
    (e : Entrega) (n : ℕ) (h : tem_forca d s = true) :
    verificar_cruzamento (some a) d s t e n =
      { alerta := some a, disparou := false, alertas_enviados := n } := by
  unfold verificar_cruzamento
  simp [reset_alerta, h]

/-- The alert stored after a cycle and whether the cycle fired do not depend
on the Telegram delivery outcome. -/
theorem verificar_entrega_indep (alerta : Option AlertaAtivo) (d : Dados)
    (s : ℚ) (t : ℕ) (ea eb : Entrega) (n : ℕ) :
    (verificar_cruzamento alerta d s t ea n).alerta =
        (verificar_cruzamento alerta d s t eb n).alerta ∧
      (verificar_cruzamento alerta d s t ea n).disparou =
        (verificar_cruzamento alerta d s t eb n).disparou := by
  unfold verificar_cruzamento
  by_cases hc : (((detectar_cruzamento d s).1 || (detectar_cruzamento d s).2) &&
      (reset_alerta alerta d s).isNone) = true
  · simp [hc]
  · simp [hc]

/-! ### Claim C1: the decay check under a non-NONE direction -/

/-- Claim C1: when an active alert is present and the freshly classified
direction is not NONE, the alert is cleared (resp. the call fires) exactly
when the for-all strength condition over the references fails.  A non-NONE
direction forces full strength, so both sides of each equivalence are
false: the alert is never cleared in this situation. -/
theorem claim_C1 (a : AlertaAtivo) (d : Dados) (s : ℚ) (t : ℕ) (e : Entrega)
    (n : ℕ) (h : direcao d s ≠ Direcao.nenhuma) :
    ((verificar_cruzamento (some a) d s t e n).alerta = none ↔
        ¬∀ r ∈ d.referencias,
          r.atual * (1 + s) < d.atual ∨ d.atual < r.atual * (1 - s)) ∧
      ((verificar_cruzamento (some a) d s t e n).disparou = true ↔
        ¬∀ r ∈ d.referencias,
          r.atual * (1 + s) < d.atual ∨ d.atual < r.atual * (1 - s)) := by
  have hflags : (cruzamento_alta_forte d s = true ∧ cruzou_alta_de_fato d = true) ∨
      (cruzamento_baixa_forte d s = true ∧ cruzou_baixa_de_fato d = true) := by
    by_contra hc
    exact h ((direcao_nenhuma_iff d s).mpr ⟨(not_or.mp hc).1, (not_or.mp hc).2⟩)
  have hall : ∀ r ∈ d.referencias,
      r.atual * (1 + s) < d.atual ∨ d.atual < r.atual * (1 - s) := by
    intro r hr
    rcases hflags with ⟨hf, -⟩ | ⟨hf, -⟩
    · exact Or.inl ((alta_forte_iff d s).mp hf r hr)
    · exact Or.inr ((baixa_forte_iff d s).mp hf r hr)
  have htf : tem_forca d s = true := by
    rw [tem_forca_iff]
    rcases hflags with ⟨-, hc⟩ | ⟨-, hc⟩
    · obtain ⟨r, hr, -⟩ := (cruzou_alta_iff d).mp hc
      exact ⟨r, hr, hall r hr⟩
    · obtain ⟨r, hr, -⟩ := (cruzou_baixa_iff d).mp hc
      exact ⟨r, hr, hall r hr⟩
  have hv : verificar_cruzamento (some a) d s t e n =
      { alerta := some a, disparou := false, alertas_enviados := n } := by
    unfold verificar_cruzamento
    simp [reset_alerta, htf]
  rw [hv]
  constructor
  · constructor
    · intro hx
      exact absurd hx (by simp)
    · intro hx
      exact absurd hall hx
  · constructor
    · intro hx
      exact absurd hx (by simp)
    · intro hx
      exact absurd hall hx

/-- Witness for C1 at Scenario A values with an alert already present for
the key: the direction is UP, nothing is cleared and nothing fires. -/
theorem claim_C1_witness :
    ((verificar_cruzamento (some ⟨Direcao.alta, 0⟩)
          ⟨99, 105, [⟨100, 100⟩, ⟨98, 98⟩]⟩ (1 / 50) 1 Entrega.sucesso 0).alerta =
          none ↔
        ¬∀ r ∈ [(⟨100, 100⟩ : RefPar), ⟨98, 98⟩],
          r.atual * (1 + 1 / 50) < (105 : ℚ) ∨
            (105 : ℚ) < r.atual * (1 - 1 / 50)) ∧
      ((verificar_cruzamento (some ⟨Direcao.alta, 0⟩)
          ⟨99, 105, [⟨100, 100⟩, ⟨98, 98⟩]⟩ (1 / 50) 1 Entrega.sucesso 0).disparou =
          true ↔
        ¬∀ r ∈ [(⟨100, 100⟩ : RefPar), ⟨98, 98⟩],
          r.atual * (1 + 1 / 50) < (105 : ℚ) ∨
            (105 : ℚ) < r.atual * (1 - 1 / 50)) :=
  claim_C1 ⟨Direcao.alta, 0⟩ ⟨99, 105, [⟨100, 100⟩, ⟨98, 98⟩]⟩ (1 / 50) 1
    Entrega.sucesso 0 (by
      have hd : direcao ⟨99, 105, [⟨100, 100⟩, ⟨98, 98⟩]⟩ (1 / 50) =
          Direcao.alta := by
        rw [direcao_alta_iff, alta_forte_iff, cruzou_alta_iff]
        norm_num
      rw [hd]
      simp)

/-! ### Claim C2: behaviour when the direction is NONE -/

/-- Counterexample to claim C2 as stated: even when the classified direction
is NONE, the decay-reset block of `verificar_cruzamento` still runs and can
delete a present active alert (here the principal sits exactly on the single
reference, so no strength remains and the entry is removed). -/
theorem claim_C2_counterexample :
    direcao ⟨100, 100, [⟨100, 100⟩]⟩ (1 / 50) = Direcao.nenhuma ∧
      (verificar_cruzamento (some ⟨Direcao.alta, 0⟩) ⟨100, 100, [⟨100, 100⟩]⟩
          (1 / 50) 1 Entrega.sucesso 0).alerta ≠ some ⟨Direcao.alta, 0⟩ := by
  have haf : cruzamento_alta_forte ⟨100, 100, [⟨100, 100⟩]⟩ (1 / 50) = false := by
    rw [Bool.eq_false_iff]
    intro hb
    rw [alta_forte_iff] at hb
    have h1 := hb ⟨100, 100⟩ (by simp)
    norm_num at h1
  have hbf : cruzamento_baixa_forte ⟨100, 100, [⟨100, 100⟩]⟩ (1 / 50) = false := by
    rw [Bool.eq_false_iff]
    intro hb
    rw [baixa_forte_iff] at hb
    have h1 := hb ⟨100, 100⟩ (by simp)
    norm_num at h1
  have htf : tem_forca ⟨100, 100, [⟨100, 100⟩]⟩ (1 / 50) = false := by
    rw [tem_forca_eq_false_iff]
    intro r hr
    rw [List.mem_singleton] at hr
    subst hr
    norm_num
  constructor
  · rw [direcao_nenhuma_iff, haf, hbf]
    simp
  · rw [verificar_sem_cruzamento _ _ _ _ _ _ (by rw [haf, Bool.false_and])
      (by rw [hbf, Bool.false_and])]
    simp only [reset_alerta]
    rw [htf]
    simp

/-- Claim C2 as amended: when the classified direction is NONE the call
never fires; the stored entry is removed exactly when it was present and
no reference retains strength in either direction (the decay reset runs
regardless of the direction), and otherwise it is left unchanged. -/
theorem claim_C2_amended (alerta : Option AlertaAtivo) (d : Dados) (s : ℚ)
    (t : ℕ) (e : Entrega) (n : ℕ) (h : direcao d s = Direcao.nenhuma) :
    (verificar_cruzamento alerta d s t e n).disparou = false ∧
      ((verificar_cruzamento alerta d s t e n).alerta = none ↔
        (alerta = none ∨ ∀ r ∈ d.referencias,
          ¬(r.atual * (1 + s) < d.atual) ∧ ¬(d.atual < r.atual * (1 - s)))) ∧
      ((verificar_cruzamento alerta d s t e n).alerta ≠ none →
        (verificar_cruzamento alerta d s t e n).alerta = alerta) := by
  have hflags1 : (cruzamento_alta_forte d s && cruzou_alta_de_fato d) = false := by
    rw [Bool.eq_false_iff]
    intro hab
    rw [Bool.and_eq_true] at hab
    exact ((direcao_nenhuma_iff d s).mp h).1 hab
  have hflags2 : (cruzamento_baixa_forte d s && cruzou_baixa_de_fato d) = false := by
    rw [Bool.eq_false_iff]
    intro hab
    rw [Bool.and_eq_true] at hab
    exact ((direcao_nenhuma_iff d s).mp h).2 hab
  have hv : verificar_cruzamento alerta d s t e n =
      { alerta := reset_alerta alerta d s, disparou := false,
        alertas_enviados := n } := by
    unfold verificar_cruzamento
    simp [detectar_cruzamento, hflags1, hflags2]
  rw [hv]
  refine ⟨rfl, ?_, ?_⟩
  · rw [← tem_forca_eq_false_iff]
    cases alerta with
    | none => simp [reset_alerta]
    | some a =>
      simp only [reset_alerta]
      cases htf : tem_forca d s <;> simp
  · intro hne
    cases alerta with
    | none => simp [reset_alerta]
    | some a =>
      simp only [reset_alerta] at hne ⊢
      cases htf : tem_forca d s
      · rw [htf] at hne
        simp at hne
      · simp

/-- Witness for the amended C2: direction NONE with a still-strong present
alert (principal 105 above the scaled reference 102) leaves the entry in
place and fires nothing. -/
theorem claim_C2_witness :
    (verificar_cruzamento (some ⟨Direcao.alta, 0⟩)
        ⟨105, 105, [⟨100, 100⟩]⟩ (1 / 50) 1 Entrega.sucesso 0).disparou = false ∧
      ((verificar_cruzamento (some ⟨Direcao.alta, 0⟩)
          ⟨105, 105, [⟨100, 100⟩]⟩ (1 / 50) 1 Entrega.sucesso 0).alerta = none ↔
        ((some ⟨Direcao.alta, 0⟩ : Option AlertaAtivo) = none ∨
          ∀ r ∈ [(⟨100, 100⟩ : RefPar)],
            ¬(r.atual * (1 + 1 / 50) < (105 : ℚ)) ∧
              ¬((105 : ℚ) < r.atual * (1 - 1 / 50)))) ∧
      ((verificar_cruzamento (some ⟨Direcao.alta, 0⟩)
          ⟨105, 105, [⟨100, 100⟩]⟩ (1 / 50) 1 Entrega.sucesso 0).alerta ≠ none →
        (verificar_cruzamento (some ⟨Direcao.alta, 0⟩)
          ⟨105, 105, [⟨100, 100⟩]⟩ (1 / 50) 1 Entrega.sucesso 0).alerta =
          some ⟨Direcao.alta, 0⟩) :=
  claim_C2_amended (some ⟨Direcao.alta, 0⟩) ⟨105, 105, [⟨100, 100⟩]⟩ (1 / 50) 1
    Entrega.sucesso 0 (by
      rw [direcao_nenhuma_iff]
      constructor
      · rintro ⟨-, hc⟩
        rw [cruzou_alta_iff] at hc
        obtain ⟨r, hr, hle⟩ := hc
        rw [List.mem_singleton] at hr
        subst hr
        norm_num at hle
      · rintro ⟨hb, -⟩
        rw [baixa_forte_iff] at hb
        have h1 := hb ⟨100, 100⟩ (by simp)
        norm_num at h1)

/-! ### Claim C3: fire, suppress, decay-reset, fire again -/

/-- Claim C3: starting with no active alert for the key, a cycle that
classifies UP fires and records `⟨UP, t₁⟩`; a later cycle whose inputs are
still strong (the decay check passes) fires nothing and leaves the entry
unchanged; a cycle whose inputs have decayed below the strength threshold
for every reference removes the entry without firing; and the next cycle
whose inputs again satisfy the strength and transition conditions fires
again. -/
theorem claim_C3 (d₁ d₂ d₃ d₄ : Dados) (s : ℚ) (t₁ t₂ t₃ t₄ : ℕ)
    (e₁ e₂ e₃ e₄ : Entrega) (n₁ n₂ n₃ n₄ : ℕ)
    (h₁ : direcao d₁ s = Direcao.alta)
    (h₂ : tem_forca d₂ s = true)
    (h₃ : ∀ r ∈ d₃.referencias,
      ¬(r.atual * (1 + s) < d₃.atual) ∧ ¬(d₃.atual < r.atual * (1 - s)))
    (h₄ : direcao d₄ s ≠ Direcao.nenhuma) :
    (verificar_cruzamento none d₁ s t₁ e₁ n₁).disparou = true ∧
      (verificar_cruzamento none d₁ s t₁ e₁ n₁).alerta =
        some ⟨Direcao.alta, t₁⟩ ∧
      (verificar_cruzamento (some ⟨Direcao.alta, t₁⟩) d₂ s t₂ e₂ n₂).disparou =
        false ∧
      (verificar_cruzamento (some ⟨Direcao.alta, t₁⟩) d₂ s t₂ e₂ n₂).alerta =
        some ⟨Direcao.alta, t₁⟩ ∧
      (verificar_cruzamento (some ⟨Direcao.alta, t₁⟩) d₃ s t₃ e₃ n₃).disparou =
        false ∧
      (verificar_cruzamento (some ⟨Direcao.alta, t₁⟩) d₃ s t₃ e₃ n₃).alerta =
        none ∧
      (verificar_cruzamento none d₄ s t₄ e₄ n₄).disparou = true := by
  obtain ⟨haf1, hcz1⟩ := (direcao_alta_iff d₁ s).mp h₁
  have hflag1 : (cruzamento_alta_forte d₁ s && cruzou_alta_de_fato d₁) = true := by
    rw [haf1, hcz1]
    rfl
  have hpasso1 := verificar_dispara none d₁ s t₁ e₁ n₁
    (by rw [hflag1, Bool.true_or]) rfl
  have hpasso2 := verificar_suprimido ⟨Direcao.alta, t₁⟩ d₂ s t₂ e₂ n₂ h₂
  have haf3 : (cruzamento_alta_forte d₃ s && cruzou_alta_de_fato d₃) = false := by
    rw [Bool.eq_false_iff]
    intro hab
    rw [Bool.and_eq_true] at hab
    obtain ⟨r, hr, -⟩ := (cruzou_alta_iff d₃).mp hab.2
    exact (h₃ r hr).1 ((alta_forte_iff d₃ s).mp hab.1 r hr)
  have hbf3 : (cruzamento_baixa_forte d₃ s && cruzou_baixa_de_fato d₃) = false := by
    rw [Bool.eq_false_iff]
    intro hab
    rw [Bool.and_eq_true] at hab
    obtain ⟨r, hr, -⟩ := (cruzou_baixa_iff d₃).mp hab.2
    exact (h₃ r hr).2 ((baixa_forte_iff d₃ s).mp hab.1 r hr)
  have htf3 : tem_forca d₃ s = false := (tem_forca_eq_false_iff d₃ s).mpr h₃
  have hpasso3 := verificar_sem_cruzamento (some ⟨Direcao.alta, t₁⟩) d₃ s t₃ e₃ n₃
    haf3 hbf3
  have hreset3 : reset_alerta (some ⟨Direcao.alta, t₁⟩) d₃ s = none := by
    simp only [reset_alerta]
    rw [htf3]
    simp
  have hpasso4 := verificar_dispara none d₄ s t₄ e₄ n₄
    (direcao_ne_nenhuma_or d₄ s h₄) rfl
  rw [hpasso1, hpasso2, hpasso3, hpasso4, hreset3]
  simp [hflag1]

/-- Witness for C3: Scenario A fires for the key, the identical still-strong
inputs are suppressed, the fully decayed inputs (principal 99 inside both
reference bands) clear the entry, and Scenario A inputs fire again. -/
theorem claim_C3_witness :
    (verificar_cruzamento none ⟨99, 105, [⟨100, 100⟩, ⟨98, 98⟩]⟩ (1 / 50) 1
        Entrega.sucesso 0).disparou = true ∧
      (verificar_cruzamento none ⟨99, 105, [⟨100, 100⟩, ⟨98, 98⟩]⟩ (1 / 50) 1
          Entrega.sucesso 0).alerta = some ⟨Direcao.alta, 1⟩ ∧
      (verificar_cruzamento (some ⟨Direcao.alta, 1⟩)
          ⟨99, 105, [⟨100, 100⟩, ⟨98, 98⟩]⟩ (1 / 50) 2 Entrega.sucesso
          1).disparou = false ∧
      (verificar_cruzamento (some ⟨Direcao.alta, 1⟩)
          ⟨99, 105, [⟨100, 100⟩, ⟨98, 98⟩]⟩ (1 / 50) 2 Entrega.sucesso
          1).alerta = some ⟨Direcao.alta, 1⟩ ∧
      (verificar_cruzamento (some ⟨Direcao.alta, 1⟩)
          ⟨105, 99, [⟨100, 100⟩, ⟨98, 98⟩]⟩ (1 / 50) 3 Entrega.sucesso
          1).disparou = false ∧
      (verificar_cruzamento (some ⟨Direcao.alta, 1⟩)
          ⟨105, 99, [⟨100, 100⟩, ⟨98, 98⟩]⟩ (1 / 50) 3 Entrega.sucesso
          1).alerta = none ∧
      (verificar_cruzamento none ⟨99, 105, [⟨100, 100⟩, ⟨98, 98⟩]⟩ (1 / 50) 4
          Entrega.sucesso 1).disparou = true :=
  claim_C3 ⟨99, 105, [⟨100, 100⟩, ⟨98, 98⟩]⟩ ⟨99, 105, [⟨100, 100⟩, ⟨98, 98⟩]⟩
    ⟨105, 99, [⟨100, 100⟩, ⟨98, 98⟩]⟩ ⟨99, 105, [⟨100, 100⟩, ⟨98, 98⟩]⟩
    (1 / 50) 1 2 3 4 Entrega.sucesso Entrega.sucesso Entrega.sucesso
    Entrega.sucesso 0 1 1 1
    (by
      rw [direcao_alta_iff, alta_forte_iff, cruzou_alta_iff]
      norm_num)
    (by
      rw [tem_forca_iff]
      refine ⟨⟨100, 100⟩, by simp, Or.inl ?_⟩
      norm_num)
    (by
      intro r hr
      rcases List.mem_cons.mp hr with hr1 | hr1
      · subst hr1
        norm_num
      · rw [List.mem_singleton] at hr1
        subst hr1
        norm_num)
    (by
      have hd : direcao ⟨99, 105, [⟨100, 100⟩, ⟨98, 98⟩]⟩ (1 / 50) =
          Direcao.alta := by
        rw [direcao_alta_iff, alta_forte_iff, cruzou_alta_iff]
        norm_num
      rw [hd]
      simp)

/-- The recorded direction (`'alta' if cruzamento_alta else 'baixa'`) agrees
with the classification whenever some crossover flag survived. -/
theorem tipo_eq_direcao (d : Dados) (s : ℚ)
    (hor : ((cruzamento_alta_forte d s && cruzou_alta_de_fato d) ||
      (cruzamento_baixa_forte d s && cruzou_baixa_de_fato d)) = true) :
    (if (cruzamento_alta_forte d s && cruzou_alta_de_fato d) then Direcao.alta
      else Direcao.baixa) = direcao d s := by
  unfold direcao detectar_cruzamento
  cases h1 : cruzamento_alta_forte d s <;>
    cases h2 : cruzou_alta_de_fato d <;>
      cases h3 : cruzamento_baixa_forte d s <;>
        cases h4 : cruzou_baixa_de_fato d <;> simp_all

/-! ### Claim C9: recording is independent of notification delivery -/

/-- Claim C9: when a cycle fires with delivery outcome `ea` (for instance a
failed or throwing Telegram call), the stored alert is the same as under any
other outcome `eb`, the cycle fires under `eb` as well, the recorded entry
is the classified direction with the firing time, and a following cycle
whose inputs are still strong does not re-fire: the alert does not re-fire
merely because delivery failed. -/
theorem claim_C9 (alerta : Option AlertaAtivo) (d d₂ : Dados) (s : ℚ)
    (t t₂ : ℕ) (ea eb ec : Entrega) (n n₂ : ℕ)
    (hdisp : (verificar_cruzamento alerta d s t ea n).disparou = true)
    (htf2 : tem_forca d₂ s = true) :
    ((verificar_cruzamento alerta d s t ea n).alerta =
        (verificar_cruzamento alerta d s t eb n).alerta) ∧
      ((verificar_cruzamento alerta d s t eb n).disparou = true) ∧
      ((verificar_cruzamento alerta d s t ea n).alerta =
        some ⟨direcao d s, t⟩) ∧
      ((verificar_cruzamento ((verificar_cruzamento alerta d s t ea n).alerta)
          d₂ s t₂ ec n₂).disparou = false) := by
  have hor : ((cruzamento_alta_forte d s && cruzou_alta_de_fato d) ||
      (cruzamento_baixa_forte d s && cruzou_baixa_de_fato d)) = true := by
    by_contra hb
    have hb' := Bool.eq_false_iff.mpr hb
    simp only [Bool.or_eq_false_iff] at hb'
    rw [verificar_sem_cruzamento alerta d s t ea n hb'.1 hb'.2] at hdisp
    simp at hdisp
  have hnone : reset_alerta alerta d s = none := by
    cases hre : reset_alerta alerta d s with
    | none => rfl
    | some x =>
      unfold verificar_cruzamento at hdisp
      rw [hre] at hdisp
      simp at hdisp
  have hv := verificar_dispara alerta d s t ea n hor hnone
  have hvb := verificar_dispara alerta d s t eb n hor hnone
  refine ⟨?_, ?_, ?_, ?_⟩
  · rw [hv, hvb]
  · rw [hvb]
  · rw [hv]
    show some (⟨if (cruzamento_alta_forte d s && cruzou_alta_de_fato d)
        then Direcao.alta else Direcao.baixa, t⟩ : AlertaAtivo) =
      some ⟨direcao d s, t⟩
    rw [tipo_eq_direcao d s hor]
  · rw [hv]
    exact nao_redispara _ d₂ s t₂ ec n₂ htf2

/-- Witness for C9: a Scenario A cycle whose Telegram delivery fails still
records the alert exactly as a successful delivery would, and the next
still-strong cycle (with a throwing delivery) does not re-fire. -/
theorem claim_C9_witness :
    ((verificar_cruzamento none ⟨99, 105, [⟨100, 100⟩, ⟨98, 98⟩]⟩ (1 / 50) 1
          Entrega.falha 0).alerta =
        (verificar_cruzamento none ⟨99, 105, [⟨100, 100⟩, ⟨98, 98⟩]⟩ (1 / 50) 1
          Entrega.sucesso 0).alerta) ∧
      ((verificar_cruzamento none ⟨99, 105, [⟨100, 100⟩, ⟨98, 98⟩]⟩ (1 / 50) 1
          Entrega.sucesso 0).disparou = true) ∧
      ((verificar_cruzamento none ⟨99, 105, [⟨100, 100⟩, ⟨98, 98⟩]⟩ (1 / 50) 1
          Entrega.falha 0).alerta =
        some ⟨direcao ⟨99, 105, [⟨100, 100⟩, ⟨98, 98⟩]⟩ (1 / 50), 1⟩) ∧
      ((verificar_cruzamento
          ((verificar_cruzamento none ⟨99, 105, [⟨100, 100⟩, ⟨98, 98⟩]⟩ (1 / 50)
            1 Entrega.falha 0).alerta)
          ⟨99, 105, [⟨100, 100⟩, ⟨98, 98⟩]⟩ (1 / 50) 2 Entrega.excecao
          0).disparou = false) :=
  claim_C9 none ⟨99, 105, [⟨100, 100⟩, ⟨98, 98⟩]⟩
    ⟨99, 105, [⟨100, 100⟩, ⟨98, 98⟩]⟩ (1 / 50) 1 2 Entrega.falha
    Entrega.sucesso Entrega.excecao 0 0
    (by
      have h1 : cruzamento_alta_forte ⟨99, 105, [⟨100, 100⟩, ⟨98, 98⟩]⟩
          (1 / 50) = true := by
        rw [alta_forte_iff]
        norm_num
      have h2 : cruzou_alta_de_fato ⟨99, 105, [⟨100, 100⟩, ⟨98, 98⟩]⟩ = true := by
        rw [cruzou_alta_iff]
        norm_num
      rw [verificar_dispara none ⟨99, 105, [⟨100, 100⟩, ⟨98, 98⟩]⟩ (1 / 50) 1
        Entrega.falha 0 (by rw [h1, h2]; rfl) rfl])
    (by
      rw [tem_forca_iff]
      refine ⟨⟨100, 100⟩, by simp, Or.inl ?_⟩
      norm_num)

/-! ### Lemmas about the moving-average engine -/

theorem le_max_periodo {w : ℕ} {periodos : List ℕ} (h : w ∈ periodos) :
    w ≤ max_periodo periodos := by
  induction periodos with
  | nil => cases h
  | cons a l ih =>
    show w ≤ max a (max_periodo l)
    rcases List.mem_cons.mp h with rfl | hmem
    · exact le_max_left _ _
    · exact le_trans (ih hmem) (le_max_right _ _)

theorem slice_length (closes : List ℚ) (w i : ℕ) (hi : w ≤ i + 1)
    (hlen : i < closes.length) :
    ((closes.take (i + 1)).drop (i + 1 - w)).length = w := by
  rw [List.length_drop, List.length_take, Nat.min_eq_left (by omega)]
  omega

theorem list_sum_eq_sum_getD (L : List ℚ) :
    L.sum = ∑ j in Finset.range L.length, L.getD j 0 := by
  induction L with
  | nil => simp
  | cons a l ih =>
    rw [List.sum_cons, List.length_cons, Finset.sum_range_succ', ih]
    simp [List.getD_cons_succ, List.getD_cons_zero, add_comm]

theorem slice_getD (closes : List ℚ) (w i j : ℕ) (hi : w ≤ i + 1)
    (_hlen : i < closes.length) (hj : j < w) :
    ((closes.take (i + 1)).drop (i + 1 - w)).getD j 0 =
      closes.getD (i + 1 - w + j) 0 := by
  rw [List.getD_eq_getElem?_getD, List.getD_eq_getElem?_getD,
    List.getElem?_drop, List.getElem?_take]
  rw [if_pos (by omega)]

theorem slice_sum_eq (closes : List ℚ) (w i : ℕ) (hi : w ≤ i + 1)
    (hlen : i < closes.length) :
    ((closes.take (i + 1)).drop (i + 1 - w)).sum =
      ∑ j in Finset.Icc (i + 1 - w) i, closes.getD j 0 := by
  rw [list_sum_eq_sum_getD, slice_length closes w i hi hlen,
    ← Nat.Ico_succ_right, Finset.sum_Ico_eq_sum_range]
  rw [show i + 1 - (i + 1 - w) = w from by omega]
  exact Finset.sum_congr rfl fun j hj =>
    slice_getD closes w i j hi hlen (Finset.mem_range.mp hj)

theorem linha_nan_iff (closes : List ℚ) (periodos : List ℕ) :
    (((periodos.map fun w => (w, rollingMean closes w (closes.length - 2))) ++
        (periodos.map fun w => (w, rollingMean closes w (closes.length - 1)))).any
      fun p => p.2.isNone) = true ↔
      ∃ w ∈ periodos,
        rollingMean closes w (closes.length - 2) = none ∨
          rollingMean closes w (closes.length - 1) = none := by
  rw [List.any_append]
  simp only [Bool.or_eq_true, List.any_eq_true, List.mem_map]
  constructor
  · rintro (⟨p, ⟨w, hw, rfl⟩, hnone⟩ | ⟨p, ⟨w, hw, rfl⟩, hnone⟩)
    · exact ⟨w, hw, Or.inl (Option.isNone_iff_eq_none.mp hnone)⟩
    · exact ⟨w, hw, Or.inr (Option.isNone_iff_eq_none.mp hnone)⟩
  · rintro ⟨w, hw, hcase | hcase⟩
    · exact Or.inl ⟨_, ⟨w, hw, rfl⟩, Option.isNone_iff_eq_none.mpr hcase⟩
    · exact Or.inr ⟨_, ⟨w, hw, rfl⟩, Option.isNone_iff_eq_none.mpr hcase⟩

/-! ### Claim C7: when the MA computation rejects its input -/

/-- Claim C7: for valid (positive) configured windows, `calcular_medias`
returns no MA set exactly when the series is shorter than the largest
window, or some rolling mean is unavailable (NaN) at one of the last two
row positions for some window; it succeeds otherwise. -/
theorem claim_C7 (closes : List ℚ) (periodos : List ℕ)
    (_hw : ∀ w ∈ periodos, 1 ≤ w) :
    calcular_medias closes periodos = none ↔
      closes.length < max_periodo periodos ∨
        ∃ w ∈ periodos,
          rollingMean closes w (closes.length - 2) = none ∨
            rollingMean closes w (closes.length - 1) = none := by
  unfold calcular_medias
  by_cases h1 : closes.length < max_periodo periodos
  · simp [h1]
  · have h2 : (periodos.any fun w => decide (closes.length < w)) = false := by
      rw [Bool.eq_false_iff]
      intro hex
      rw [List.any_eq_true] at hex
      obtain ⟨w, hwmem, hlt⟩ := hex
      rw [decide_eq_true_eq] at hlt
      exact absurd hlt
        (not_lt.mpr (le_trans (le_max_periodo hwmem) (le_of_not_lt h1)))
    rw [if_neg h1, if_neg (by rw [h2]; simp)]
    by_cases h3 : (((periodos.map fun w =>
        (w, rollingMean closes w (closes.length - 2))) ++
          (periodos.map fun w => (w, rollingMean closes w (closes.length - 1)))).any
        fun p => p.2.isNone) = true
    · rw [if_pos h3]
      constructor
      · intro _
        exact Or.inr ((linha_nan_iff closes periodos).mp h3)
      · intro _
        rfl
    · rw [if_neg h3]
      constructor
      · intro hx
        exact absurd hx (by simp)
      · rintro (hx | hx)
        · exact absurd hx h1
        · exact absurd ((linha_nan_iff closes periodos).mpr hx) h3

/-- Witness for C7 with a three-element series and a single window of 2:
both of the last two rolling means are available, so the computation
succeeds. -/
theorem claim_C7_witness :
    calcular_medias [1, 2, 3] [2] = none ↔
      ([1, 2, 3] : List ℚ).length < max_periodo [2] ∨
        ∃ w ∈ [2],
          rollingMean [1, 2, 3] w (([1, 2, 3] : List ℚ).length - 2) = none ∨
            rollingMean [1, 2, 3] w (([1, 2, 3] : List ℚ).length - 1) = none :=
  claim_C7 [1, 2, 3] [2] (by decide)

/-! ### Claim C8: the rolling mean is the arithmetic mean of the window -/

/-- Claim C8: at every valid position (full window available), the computed
rolling mean is the arithmetic mean of the closes in the trailing window
`[i - w + 1, i]`; in particular for a constant series every computed MA
equals the constant. -/
theorem claim_C8 (closes : List ℚ) (w i : ℕ) (v : ℚ) (hw : 1 ≤ w)
    (hi : w ≤ i + 1) (hlen : i < closes.length) :
    rollingMean closes w i =
      some ((∑ j in Finset.Icc (i + 1 - w) i, closes.getD j 0) / (w : ℚ)) ∧
      ((∀ x ∈ closes, x = v) → rollingMean closes w i = some v) := by
  have hcond : w ≤ i + 1 ∧ i < closes.length := ⟨hi, hlen⟩
  constructor
  · unfold rollingMean
    rw [if_pos hcond, slice_sum_eq closes w i hi hlen]
  · intro hconst
    unfold rollingMean
    rw [if_pos hcond]
    have hslice : ∀ x ∈ (closes.take (i + 1)).drop (i + 1 - w), x = v :=
      fun x hx => hconst x (List.mem_of_mem_take (List.mem_of_mem_drop hx))
    rw [List.sum_eq_card_nsmul _ v hslice, slice_length closes w i hi hlen,
      nsmul_eq_mul]
    congr 1
    exact mul_div_cancel_left₀ v (Nat.cast_ne_zero.mpr (by omega))

/-- Witness for C8 on the constant series `[1, 1, 1]` with window 2 at the
last position. -/
theorem claim_C8_witness :
    rollingMean [1, 1, 1] 2 2 =
        some ((∑ j in Finset.Icc (2 + 1 - 2) 2, ([1, 1, 1] : List ℚ).getD j 0) /
          ((2 : ℕ) : ℚ)) ∧
      ((∀ x ∈ ([1, 1, 1] : List ℚ), x = 1) →
        rollingMean [1, 1, 1] 2 2 = some 1) :=
  claim_C8 [1, 1, 1] 2 2 1 (by norm_num) (by norm_num) (by norm_num)

/-! ### Claim C10: the rendered strength figure -/

/-- Counterexample to claim C10 as stated: the code takes the absolute value
of each whole quotient, while the claim's formula divides the absolute
difference by the raw (possibly negative) reference, so the two disagree
when a reference value is negative. -/
theorem claim_C10_counterexample :
    calcular_forca_real (some 0) (some (-1)) (some 1) = 100 ∧
      min (|(0 : ℚ) - (-1)| / (-1)) (|(0 : ℚ) - 1| / 1) * 100 = -100 := by
  constructor
  · unfold calcular_forca_real
    norm_num
  · norm_num

/-- Claim C10 as amended: the strength figure is
`min(|ma7 - ma25| / |ma25|, |ma7 - ma99| / |ma99|) * 100` over the hardcoded
keys (absent keys defaulting to 0), and the computation is total: whenever
`ma_25` or `ma_99` is zero or absent the result is 0 rather than a division
by zero. -/
theorem claim_C10_amended (ma_7 ma_25 ma_99 : Option ℚ) :
    calcular_forca_real ma_7 ma_25 ma_99 =
      if ma_25.getD 0 = 0 ∨ ma_99.getD 0 = 0 then 0
      else
        min (|ma_7.getD 0 - ma_25.getD 0| / |ma_25.getD 0|)
          (|ma_7.getD 0 - ma_99.getD 0| / |ma_99.getD 0|) * 100 := by
  unfold calcular_forca_real
  by_cases h : ma_25.getD 0 = 0 ∨ ma_99.getD 0 = 0
  · rw [if_pos h, if_pos h]
  · rw [if_neg h, if_neg h,
      min_mul_of_nonneg _ _ (by norm_num : (0 : ℚ) ≤ 100), abs_div, abs_div]

end Futuros
